import Mathlib

/-!
Verification model of the client-side synchronization core of the
just-a-list-manager repository: the durable mutation queue
(src/utils/mutation-queue.ts), the mutation dispatcher
(useMutationQueue: executeMutation / flushQueue), the realtime
subscription manager (useRealtimeList), and the reconnection
orchestrator (TelegramProvider: runReconnect / reconnect /
debouncedReconnect).

The TypeScript code is shallowly embedded: each stateful routine becomes
a pure function on an explicit state record; asynchronous suspension
points become explicit events; timers become boolean/optional fields
consumed by explicit fire events.  JavaScript numbers are modelled as
Nat (all quantities involved are non-negative integers), and the
truthiness tests the code performs on strings are modelled explicitly
(a string is truthy iff it is non-empty).
-/

namespace SyncCore

/-! ## Data model

QueuedMutation (mutation-queue.ts): `{ id, type, payload, timestamp }`.
The dispatcher only ever inspects two payload fields, `payload?.itemId`
and `payload?.tempId`; the payload is therefore modelled by exactly
those two optional fields. -/

structure Payload where
  itemId : Option String
  tempId : Option String
deriving DecidableEq

structure QM where
  id : String
  type : String
  payload : Payload
  timestamp : Nat
deriving DecidableEq

/-- JavaScript truthiness of an optional string: present and non-empty. -/
def optTruthy : Option String → Bool
  | some s => s != ""
  | none => false

/-! ## Durable mutation log (mutation-queue.ts) -/

/-- `MAX_QUEUE_SIZE` from mutation-queue.ts. -/
def MAX_QUEUE_SIZE : Nat := 100

/-- The list transformation performed by `MutationQueue.enqueue`:
`queue.push(entry)` followed by
`if (queue.length > MAX_QUEUE_SIZE) queue.splice(0, queue.length - MAX_QUEUE_SIZE)`.
The entry (with its id and timestamp fields already filled in) is taken
as an argument. -/
def enqueueList (q : List QM) (e : QM) : List QM :=
  let q' := q ++ [e]
  if q'.length > MAX_QUEUE_SIZE then q'.drop (q'.length - MAX_QUEUE_SIZE) else q'

/-- The list transformation performed by `MutationQueue.dequeue`:
`getQueue().filter((m) => m.id !== id)`. -/
def dequeueList (q : List QM) (i : String) : List QM :=
  q.filter (fun m => m.id != i)

/-! localStorage persistence.  The stored value under the queue's key is
modelled as `Option (List QM)` (`none` = key absent).  `saveQueue` wraps
`localStorage.setItem` in try/catch: on a write failure the exception is
swallowed and the stored value is left unchanged.  The write-failure
behaviour of the environment is passed as a boolean. -/

/-- `MutationQueue.getQueue`: read and parse the stored value, `[]` when
absent (or unreadable). -/
def getQueueStore (s : Option (List QM)) : List QM := s.getD []

/-- `MutationQueue.saveQueue`: persist `q`, swallowing write failures
(on failure the previously stored value survives unchanged). -/
def saveQueueStore (writeFails : Bool) (s : Option (List QM)) (q : List QM) :
    Option (List QM) :=
  if writeFails then s else some q

/-- `MutationQueue.enqueue` at the storage level: read, append/evict, save. -/
def enqueueStore (writeFails : Bool) (s : Option (List QM)) (e : QM) :
    Option (List QM) :=
  saveQueueStore writeFails s (enqueueList (getQueueStore s) e)

/-- `MutationQueue.dequeue` at the storage level: read, filter, save. -/
def dequeueStore (writeFails : Bool) (s : Option (List QM)) (i : String) :
    Option (List QM) :=
  saveQueueStore writeFails s (dequeueList (getQueueStore s) i)

/-! ## Dispatcher failure classification (executeMutation catch block) -/

/-- Whether the character list `pat` occurs at the start of `l`. -/
def listLeads : List Char → List Char → Bool
  | [], _ => true
  | _ :: _, [] => false
  | a :: as, b :: bs => a == b && listLeads as bs

/-- Whether the character list `pat` occurs contiguously anywhere in `l`
(JavaScript `String.prototype.includes`). -/
def listHasSub (pat : List Char) : List Char → Bool
  | [] => listLeads pat []
  | c :: rest => listLeads pat (c :: rest) || listHasSub pat rest

/-- `hay.includes(pat)`. -/
def strIncludes (hay pat : String) : Bool :=
  listHasSub pat.toList hay.toList

/-- ASCII whitespace, modelling the regex class `\s` (the Unicode space
characters JavaScript additionally accepts never occur in the messages
this code produces). -/
def isWsChar (c : Char) : Bool :=
  c == ' ' || c == '\t' || c == '\n' || c == '\r' || c == '\x0b' || c == '\x0c'

def digitVal (c : Char) : Nat := c.toNat - '0'.toNat

/-- The regex `message.match(/:\s*(\d{3})$/)` from executeMutation: the
message must end in a colon, optional whitespace, and exactly three
digits; on a match the three digits are parsed as the HTTP status. -/
def extractStatus (msg : String) : Option Nat :=
  match msg.toList.reverse with
  | d1 :: d2 :: d3 :: rest =>
    if d1.isDigit && d2.isDigit && d3.isDigit then
      match rest.dropWhile isWsChar with
      | ':' :: _ => some (digitVal d3 * 100 + digitVal d2 * 10 + digitVal d1)
      | _ => none
    else none
  | _ => none

/-- The offline test of executeMutation's catch block:
`message.includes("fetch") || message.includes("network") ||
message.includes("Failed to fetch") || !navigator.onLine`. -/
def offlineTest (msg : String) (onLine : Bool) : Bool :=
  strIncludes msg "fetch" || strIncludes msg "network" ||
    strIncludes msg "Failed to fetch" || !onLine

inductive FailOutcome
  | keepQueued
  | dropPermanent
deriving DecidableEq

/-- The decision taken by executeMutation's catch block on an execution
failure with message `msg` while `navigator.onLine = onLine`: the
offline test is applied first; then an extracted 4xx status other than
408 and 429 drops the mutation permanently; everything else is kept
queued for retry. -/
def classifyFailure (msg : String) (onLine : Bool) : FailOutcome :=
  if offlineTest msg onLine then .keepQueued
  else
    match extractStatus msg with
    | some s =>
      if 400 ≤ s ∧ s < 500 ∧ s ≠ 408 ∧ s ≠ 429 then .dropPermanent
      else .keepQueued
    | none => .keepQueued

/-! ## Dispatcher drain pass (flushQueue)

The drain pass iterates over a snapshot of the queue taken once at the
start (`const queue = queueRef.current.getQueue()`), while dequeues
mutate the persisted queue.  The pass state carries the persisted
queue, the pending-executor map, and the two ephemeral per-pass tables
`tempToRealId` and `failedTempIds`.

An executor is modelled by its provenance: either it was already cached
in `pendingExecutors` before this iteration of the loop, or it was
freshly built by the executor factory from a (possibly resolved)
mutation value during this iteration.  The result of invoking any
executor for mutation id `i` is supplied by the environment as
`execResult i`.  `Date.now()` is modelled as a fixed `now` for the
pass, and `navigator.onLine` and `getJwt()` as fixed environment
fields. -/

/-- Result of awaiting an executor: the promise resolves (optionally
with a server-assigned id string) or rejects with an error message. -/
inductive ExecResult
  | success (ret : Option String)
  | failure (message : String)
deriving DecidableEq

/-- Provenance of the executor used for one queue entry. -/
inductive ExecInfo
  | preexisting
  | freshlyBuilt (m : QM)
deriving DecidableEq

/-- What the drain loop did with one queue entry. -/
inductive TraceEv
  | droppedStale (i : String)
  | skippedFailedDep (i : String)
  | executed (i : String) (e : ExecInfo) (r : ExecResult)
  | droppedNoExecutor (i : String)
deriving DecidableEq

structure FlushEnv where
  now : Nat
  onLine : Bool
  jwt : Option String
  hasFactory : Bool
  factoryBuilds : QM → Bool
  execResult : String → ExecResult

structure PassSt where
  persisted : List QM
  executors : String → Option ExecInfo
  tempToReal : String → Option String
  failedTemp : String → Bool

/-- `MUTATION_MAX_AGE_MS` (24 hours). -/
def MUTATION_MAX_AGE_MS : Nat := 24 * 60 * 60 * 1000

def eraseExec (f : String → Option ExecInfo) (i : String) :
    String → Option ExecInfo :=
  fun k => if k = i then none else f k

def insertExec (f : String → Option ExecInfo) (i : String) (e : ExecInfo) :
    String → Option ExecInfo :=
  fun k => if k = i then some e else f k

/-- `executeMutation(id, execute)`: await the executor; on success
dequeue and drop the cached executor and return the result; on failure
classify, dropping permanently on a client error.  Returns the updated
state together with the value of the awaited call (`none` = void). -/
def executeMutationSt (env : FlushEnv) (st : PassSt) (i : String) :
    PassSt × Option String :=
  match env.execResult i with
  | .success ret =>
    ({ st with persisted := dequeueList st.persisted i,
               executors := eraseExec st.executors i }, ret)
  | .failure msg =>
    match classifyFailure msg env.onLine with
    | .dropPermanent =>
      ({ st with persisted := dequeueList st.persisted i,
                 executors := eraseExec st.executors i }, none)
    | .keepQueued => (st, none)

/-- Step 2 of the loop body: `mutation.payload?.itemId &&
failedTempIds.has(mutation.payload.itemId)`. -/
def depSkip (st : PassSt) (m : QM) : Bool :=
  match m.payload.itemId with
  | some iid => iid != "" && st.failedTemp iid
  | none => false

/-- Step 3: the resolved copy of the mutation (temp itemId replaced by
the real id from the resolution table) together with whether a
resolution actually happened. -/
def resolveStep (st : PassSt) (m : QM) : QM × Bool :=
  match m.payload.itemId with
  | some iid =>
    if iid != "" then
      match st.tempToReal iid with
      | some rid => ({ m with payload := { m.payload with itemId := some rid } }, true)
      | none => (m, false)
    else (m, false)
  | none => (m, false)

/-- Steps 3b/4: discard the cached executor when the payload was
resolved, then (re)acquire one from the factory when a truthy jwt is
available.  Returns the updated executor map and the executor to use. -/
def acquireExec (env : FlushEnv) (st : PassSt) (m : QM) (resolved : QM)
    (didResolve : Bool) : (String → Option ExecInfo) × Option ExecInfo :=
  let ex0 := st.executors m.id
  let exs1 := if didResolve && ex0.isSome then eraseExec st.executors m.id
    else st.executors
  let ex1 : Option ExecInfo := if didResolve && ex0.isSome then none else ex0
  match ex1 with
  | some e => (exs1, some e)
  | none =>
    if env.hasFactory && optTruthy env.jwt && env.factoryBuilds resolved then
      (insertExec exs1 m.id (.freshlyBuilt resolved), some (.freshlyBuilt resolved))
    else (exs1, none)

/-- Step 6 bookkeeping after an execution: record a returned server id
for a create in the resolution table; record the temp id of a create
that is still queued after a void result in the failed set. -/
def recordResult (st : PassSt) (m resolved : QM) (ret : Option String) : PassSt :=
  let st1 :=
    match ret with
    | some s =>
      if resolved.type == "create" && optTruthy resolved.payload.tempId then
        { st with tempToReal := fun k =>
            if k = resolved.payload.tempId.getD "" then some s
            else st.tempToReal k }
      else st
    | none => st
  match ret with
  | some _ => st1
  | none =>
    if resolved.type == "create" && optTruthy resolved.payload.tempId &&
        st1.persisted.any (fun x => x.id == m.id) then
      { st1 with failedTemp := fun k =>
          if k = resolved.payload.tempId.getD "" then true
          else st1.failedTemp k }
    else st1

/-- Steps 3-6 of the loop body (resolution, executor acquisition,
execution or drop, bookkeeping), reached when the entry is neither
stale nor blocked by a failed dependency. -/
def stepExec (env : FlushEnv) (st : PassSt) (m : QM) : PassSt × TraceEv :=
  let rm := resolveStep st m
  let acq := acquireExec env st m rm.1 rm.2
  match acq.2 with
  | some e =>
    let st1 : PassSt := { st with executors := acq.1 }
    let er := executeMutationSt env st1 m.id
    (recordResult er.1 m rm.1 er.2, .executed m.id e (env.execResult m.id))
  | none =>
    ({ st with executors := acq.1,
               persisted := dequeueList st.persisted m.id },
      .droppedNoExecutor m.id)

/-- One iteration of the flushQueue loop body on queue entry `m`:
staleness check, dependency check, then resolution and execution. -/
def stepCore (env : FlushEnv) (st : PassSt) (m : QM) : PassSt × TraceEv :=
  if env.now - m.timestamp > MUTATION_MAX_AGE_MS then
    ({ st with persisted := dequeueList st.persisted m.id,
               executors := eraseExec st.executors m.id }, .droppedStale m.id)
  else if depSkip st m then (st, .skippedFailedDep m.id)
  else stepExec env st m

/-- The flushQueue loop over the snapshot, producing the final state and
one trace event per snapshot entry. -/
def runPass (env : FlushEnv) (st : PassSt) : List QM → PassSt × List TraceEv
  | [] => (st, [])
  | m :: rest =>
    let p := stepCore env st m
    let r := runPass env p.1 rest
    (r.1, p.2 :: r.2)

/-- Initial pass state: the persisted queue is the snapshot, the
executor map is whatever `pendingExecutors` holds when the pass starts,
and both per-pass tables are empty. -/
def initSt (q : List QM) (ex0 : String → Option ExecInfo) : PassSt :=
  { persisted := q, executors := ex0,
    tempToReal := fun _ => none, failedTemp := fun _ => false }

/-- One drain pass of `flushQueue` over the snapshot `q`. -/
def flushQueue (env : FlushEnv) (q : List QM) (ex0 : String → Option ExecInfo) :
    PassSt × List TraceEv :=
  runPass env (initSt q ex0) q

/-! ## Realtime subscription manager (useRealtimeList)

Per-effect closure state: `active`, `retryCount`, `retryTimer`,
`hadSuccessfulConnection`, `subscribeCount`, plus the channel ref and
the connection-status React state.  A pending backoff timer is modelled
as `Option Nat` holding the delay it was scheduled with; firing it
clears the field and calls `subscribe()`. -/

def MIN_RETRY_MS : Nat := 1000
def MAX_RETRY_MS : Nat := 30000

inductive ConnStatus
  | connected
  | connecting
  | offline
deriving DecidableEq

structure SubSt where
  active : Bool
  retryCount : Nat
  hadSuccess : Bool
  subscribeCount : Nat
  channelOpen : Bool
  retryTimer : Option Nat
  status : ConnStatus
deriving DecidableEq

/-- `subscribe()`: tear down any existing channel, show "connecting"
only after a previous success, and open a channel under a fresh name
derived from the incremented `subscribeCount`. -/
def subscribeSub (s : SubSt) : SubSt :=
  if !s.active then s
  else
    { s with channelOpen := true,
             subscribeCount := s.subscribeCount + 1,
             status := if s.hadSuccess then .connecting else s.status }

/-- `scheduleRetry()`: remove the failed channel, compute the capped
exponential backoff delay from the current `retryCount`, then increment
the counter and schedule `subscribe()` after the delay. -/
def scheduleRetry (s : SubSt) : SubSt :=
  if !s.active then s
  else
    { s with channelOpen := false,
             status := if s.hadSuccess then .connecting else s.status,
             retryTimer := some (min (MIN_RETRY_MS * 2 ^ s.retryCount) MAX_RETRY_MS),
             retryCount := s.retryCount + 1 }

/-- Status reported by the channel's subscribe callback. -/
inductive SubStatus
  | subscribed
  | channelError
  | timedOut
deriving DecidableEq

/-- The `.subscribe((status, err) => ...)` callback: a success resets
the retry counter and flips to connected; an error or timeout status
schedules a retry. -/
def statusEvent (s : SubSt) (st : SubStatus) : SubSt :=
  if !s.active then s
  else
    match st with
    | .subscribed =>
      { s with retryCount := 0, hadSuccess := true, status := .connected }
    | .channelError => scheduleRetry s
    | .timedOut => scheduleRetry s

/-- The backoff timer fires: clear it and re-invoke `subscribe()`. -/
def retryTimerFireSub (s : SubSt) : SubSt :=
  match s.retryTimer with
  | some _ => subscribeSub { s with retryTimer := none }
  | none => s

/-- The browser `online` handler: reset the retry counter, cancel any
pending backoff timer, and resubscribe immediately. -/
def goOnline (s : SubSt) : SubSt :=
  if !s.active then s
  else subscribeSub { s with retryCount := 0, retryTimer := none }

/-- The browser `offline` handler. -/
def goOffline (s : SubSt) : SubSt :=
  if !s.active then s else { s with status := .offline }

/-- One failed attempt followed by its backoff timer firing: the cycle
between consecutive subscribe attempts when every attempt reports
`CHANNEL_ERROR`. -/
def errFireCycle (s : SubSt) : SubSt :=
  retryTimerFireSub (statusEvent s .channelError)

/-! ## Reconnection orchestrator (TelegramProvider)

State: the `OrchestratorState` ref, the retry-counter ref, the pending
`retryTimeout` and `cooldownTimeout`, the `reconnectLock` mutex, and
the throttle timestamp used by `debouncedReconnect`.

`runReconnect` is an async function with awaits after acquiring the
lock; it is modelled as a coroutine with two suspension points:
`awaitingToken` (inside step 1, awaiting the credential refresh,
including its initData fallback) and `awaitingSteps` (awaiting steps
2-5: client rebuild, flush, resubscribe, refresh).  The lock is held
exactly while the coroutine is live (`phase.isSome`): the code sets
`reconnectLockRef.current = true` synchronously on entry and releases
it in `finally` synchronously with each completion path. -/

inductive OState
  | initializing
  | idle
  | reconnecting
  | needsRetry
  | cooldown
  | authFailed
deriving DecidableEq

inductive RunPhase
  | awaitingToken
  | awaitingSteps
deriving DecidableEq

def MAX_RETRIES : Nat := 5
def RECONNECT_THROTTLE_MS : Nat := 5000

structure OrchSt where
  st : OState
  retry : Nat
  retryTimer : Bool
  cooldownTimer : Bool
  phase : Option RunPhase
  lastAttempt : Nat
deriving DecidableEq

/-- Invoking `runReconnect()`: return unless the state is `idle` and the
mutex is free; otherwise take the lock, move to `reconnecting`, and
suspend awaiting the credential refresh. -/
def startRun (g : OrchSt) : OrchSt :=
  if g.st ≠ .idle then g
  else if g.phase.isSome then g
  else { g with st := .reconnecting, phase := some .awaitingToken }

/-- Step 1 completes: `ok` says whether a token was obtained (via the
existing JWT or the initData fallback).  On failure the retry counter
is incremented; at the ceiling the machine goes terminal `auth_failed`,
otherwise `needs_retry` with a delayed automatic retry.  On success the
coroutine proceeds to await steps 2-5. -/
def tokenRes (g : OrchSt) (ok : Bool) : OrchSt :=
  if g.phase ≠ some .awaitingToken then g
  else if ok then { g with phase := some .awaitingSteps }
  else if g.retry + 1 ≥ MAX_RETRIES then
    { g with st := .authFailed, retry := g.retry + 1, phase := none }
  else
    { g with st := .needsRetry, retry := g.retry + 1, retryTimer := true,
             phase := none }

/-- Steps 2-5 settle: on success reset the retry counter and enter
`cooldown` with its timer; on an exception increment the counter and
enter `needs_retry`, scheduling an automatic retry only below the
ceiling. -/
def stepsRes (g : OrchSt) (ok : Bool) : OrchSt :=
  if g.phase ≠ some .awaitingSteps then g
  else if ok then
    { g with st := .cooldown, retry := 0, cooldownTimer := true, phase := none }
  else if g.retry + 1 ≥ MAX_RETRIES then
    { g with st := .needsRetry, retry := g.retry + 1, phase := none }
  else
    { g with st := .needsRetry, retry := g.retry + 1, retryTimer := true,
             phase := none }

/-- `reconnect()`: no-op while a pass is in flight; otherwise clear both
timers, reset the retry counter, force the state to `idle`, and invoke
`runReconnect()` (which then always starts, the state being idle and
the lock free). -/
def manualReconnect (g : OrchSt) : OrchSt :=
  if g.phase.isSome then g
  else startRun { g with retryTimer := false, cooldownTimer := false,
                         retry := 0, st := .idle }

/-- `debouncedReconnect()` as invoked by the browser `online` and
`visibilitychange`(visible) handlers at time `now`: throttled to one
`reconnect()` per 5 seconds. -/
def browserReconnect (now : Nat) (g : OrchSt) : OrchSt :=
  if now - g.lastAttempt < RECONNECT_THROTTLE_MS then g
  else manualReconnect { g with lastAttempt := now }

/-- The `retryTimeout` callback: force the state back to `idle` and
re-invoke `runReconnect()`. -/
def orchRetryTimerFire (g : OrchSt) : OrchSt :=
  if g.retryTimer then
    startRun { g with retryTimer := false, st := .idle }
  else g

/-- The `cooldownTimeout` callback: return to `idle` if still cooling
down. -/
def cooldownTimerFire (g : OrchSt) : OrchSt :=
  if g.cooldownTimer then
    { g with cooldownTimer := false,
             st := if g.st = .cooldown then .idle else g.st }
  else g

/-- Orchestrator events: entry-point invocations, await resolutions and
timer fires. `startRun` is the bare `runReconnect()` call, which is
what the 45-minute proactive timer invokes. -/
inductive OEv
  | startRun
  | tokenRes (ok : Bool)
  | stepsRes (ok : Bool)
  | manualReconnect
  | browserReconnect (now : Nat)
  | retryTimerFire
  | cooldownTimerFire
deriving DecidableEq

def orchStep (g : OrchSt) : OEv → OrchSt
  | .startRun => startRun g
  | .tokenRes ok => tokenRes g ok
  | .stepsRes ok => stepsRes g ok
  | .manualReconnect => manualReconnect g
  | .browserReconnect now => browserReconnect now g
  | .retryTimerFire => orchRetryTimerFire g
  | .cooldownTimerFire => cooldownTimerFire g

def orchRun (g : OrchSt) (evs : List OEv) : OrchSt :=
  evs.foldl orchStep g

/-- The orchestrator state after bootstrap: `idle`, counter zero, no
timers, lock free. -/
def orchInit : OrchSt :=
  { st := .idle, retry := 0, retryTimer := false, cooldownTimer := false,
    phase := none, lastAttempt := 0 }

/-- Five consecutive credential-refresh failures, each automatic retry
driven by the scheduled `retryTimeout`: invoke `runReconnect`, fail the
token refresh, let the retry timer fire, four times over, then fail the
token refresh a fifth time. -/
def fiveAuthFailures : List OEv :=
  [.startRun, .tokenRes false,
   .retryTimerFire, .tokenRes false,
   .retryTimerFire, .tokenRes false,
   .retryTimerFire, .tokenRes false,
   .retryTimerFire, .tokenRes false]

/-! ## Auxiliary invariant and concrete instances -/

/-- Invariant of the orchestrator state maintained from bootstrap on:
the retry timer is never pending while a pass is in flight, while the
machine is in a state a pass can start from, while cooling down, or in
the terminal auth-failed state, and no pass is in flight in
auth-failed. -/
def OrchInv (g : OrchSt) : Prop :=
  (g.phase.isSome = true → g.retryTimer = false) ∧
  (g.st = .idle → g.retryTimer = false) ∧
  (g.st = .cooldown → g.retryTimer = false) ∧
  (g.st = .authFailed → g.phase = none) ∧
  (g.st = .authFailed → g.retryTimer = false)

/-- The subscription manager's per-effect closure state right after the
effect body ran its initial `subscribe()` has not yet happened. -/
def subInit : SubSt :=
  { active := true, retryCount := 0, hadSuccess := false, subscribeCount := 0,
    channelOpen := false, retryTimer := none, status := .connecting }

/-- An empty pending-executor map. -/
def exNone : String → Option ExecInfo := fun _ => none

/-- Sample mutation: a toggle referencing the temp id "tmp1". -/
def refMut : QM :=
  { id := "m1", type := "toggle",
    payload := { itemId := some "tmp1", tempId := none }, timestamp := 10 }

/-- Sample mutation: a create carrying the temp id "tmp1". -/
def createMut : QM :=
  { id := "m2", type := "create",
    payload := { itemId := none, tempId := some "tmp1" }, timestamp := 10 }

/-- Environment in which the create "m2" fails with a retryable 500 and
everything else succeeds. -/
def envCreateFails : FlushEnv :=
  { now := 10, onLine := true, jwt := some "j", hasFactory := true,
    factoryBuilds := fun _ => true,
    execResult := fun i => if i == "m2" then .failure "boom: 500" else .success none }

/-- Sample mutation with no references, enqueued at time 0. -/
def plainMut : QM :=
  { id := "m1", type := "toggle",
    payload := { itemId := none, tempId := none }, timestamp := 0 }

/-- Environment whose clock stands exactly 24 hours after time 0 and in
which every execution succeeds. -/
def envBoundary : FlushEnv :=
  { now := 24 * 60 * 60 * 1000, onLine := true, jwt := some "j", hasFactory := true,
    factoryBuilds := fun _ => true, execResult := fun _ => .success none }

/-- Environment whose clock stands one millisecond past the 24-hour
window after time 0. -/
def envPastWindow : FlushEnv :=
  { now := 24 * 60 * 60 * 1000 + 1, onLine := true, jwt := some "j",
    hasFactory := true, factoryBuilds := fun _ => true,
    execResult := fun _ => .success none }

/-- Environment in which every execution fails with a message that both
matches the offline test (contains "fetch") and carries the status 404. -/
def envFetch404 : FlushEnv :=
  { now := 0, onLine := true, jwt := some "j", hasFactory := true,
    factoryBuilds := fun _ => true,
    execResult := fun _ => .failure "Failed to fetch: 404" }

/-- Sample mutation: the create "m1" carrying temp id "tmp1". -/
def createM1 : QM :=
  { id := "m1", type := "create",
    payload := { itemId := none, tempId := some "tmp1" }, timestamp := 10 }

/-- Sample mutation: a toggle "m2" referencing temp id "tmp1". -/
def toggleM2 : QM :=
  { id := "m2", type := "toggle",
    payload := { itemId := some "tmp1", tempId := none }, timestamp := 10 }

/-- Environment in which the create "m1" succeeds with server id "srv9"
and everything else succeeds with a void result. -/
def envCreateOk : FlushEnv :=
  { now := 10, onLine := true, jwt := some "j", hasFactory := true,
    factoryBuilds := fun _ => true,
    execResult := fun i => if i == "m1" then .success (some "srv9") else .success none }

/-- A pending-executor map holding a stale cached executor for "m2". -/
def exCachedM2 : String → Option ExecInfo :=
  fun i => if i == "m2" then some .preexisting else none

/-- The orchestrator state reached by five consecutive
credential-refresh failures. -/
def gAuthFailed : OrchSt :=
  { st := .authFailed, retry := 5, retryTimer := false, cooldownTimer := false,
    phase := none, lastAttempt := 0 }

/-- A subscription-manager state three failed attempts in. -/
def subThree : SubSt :=
  { active := true, retryCount := 3, hadSuccess := true, subscribeCount := 3,
    channelOpen := true, retryTimer := none, status := .connected }

/-! ## Helper lemmas -/

theorem runPass_nil (env : FlushEnv) (st : PassSt) : runPass env st [] = (st, []) := rfl

theorem runPass_cons (env : FlushEnv) (st : PassSt) (m : QM) (l : List QM) :
    runPass env st (m :: l) =
      ((runPass env (stepCore env st m).1 l).1,
        (stepCore env st m).2 :: (runPass env (stepCore env st m).1 l).2) := rfl

theorem runPass_append (env : FlushEnv) (l1 l2 : List QM) (st : PassSt) :
    runPass env st (l1 ++ l2) =
      ((runPass env (runPass env st l1).1 l2).1,
        (runPass env st l1).2 ++ (runPass env (runPass env st l1).1 l2).2) := by
  induction l1 generalizing st with
  | nil => simp [runPass_nil]
  | cons m rest ih => simp [runPass_cons, ih]

theorem resolveStep_type (st : PassSt) (m : QM) : (resolveStep st m).1.type = m.type := by
  unfold resolveStep
  cases h : m.payload.itemId with
  | none => rfl
  | some iid =>
    by_cases h2 : iid = ""
    · simp [h2]
    · simp [h2]
      cases st.tempToReal iid <;> simp

theorem resolveStep_tempId (st : PassSt) (m : QM) :
    (resolveStep st m).1.payload.tempId = m.payload.tempId := by
  unfold resolveStep
  cases h : m.payload.itemId with
  | none => rfl
  | some iid =>
    by_cases h2 : iid = ""
    · simp [h2]
    · simp [h2]
      cases st.tempToReal iid <;> simp

theorem resolveStep_id (st : PassSt) (m : QM) : (resolveStep st m).1.id = m.id := by
  unfold resolveStep
  cases h : m.payload.itemId with
  | none => rfl
  | some iid =>
    by_cases h2 : iid = ""
    · simp [h2]
    · simp [h2]
      cases st.tempToReal iid <;> simp

/-- When the entry's itemId is a truthy key of the resolution table,
the resolved copy substitutes the real id and the resolution flag is
set. -/
theorem resolveStep_hit (st : PassSt) (m : QM) (t s : String)
    (hm : m.payload.itemId = some t) (ht : t ≠ "") (hl : st.tempToReal t = some s) :
    resolveStep st m =
      ({ m with payload := { m.payload with itemId := some s } }, true) := by
  unfold resolveStep
  simp [hm, ht, hl]

theorem recordResult_persisted (st : PassSt) (m r : QM) (ret : Option String) :
    (recordResult st m r ret).persisted = st.persisted := by
  unfold recordResult
  cases ret <;> dsimp only <;> split_ifs <;> rfl

theorem recordResult_failedTemp_mono (st : PassSt) (m r : QM) (ret : Option String)
    (t : String) (h : st.failedTemp t = true) :
    (recordResult st m r ret).failedTemp t = true := by
  unfold recordResult
  cases ret <;> dsimp only <;> split_ifs <;> simp_all

theorem executeMutationSt_persisted (env : FlushEnv) (st : PassSt) (i : String) :
    (executeMutationSt env st i).1.persisted = st.persisted ∨
    (executeMutationSt env st i).1.persisted = dequeueList st.persisted i := by
  rcases h : env.execResult i with ret | msg
  · right; simp [executeMutationSt, h]
  · rcases hc : classifyFailure msg env.onLine with _ | _
    · left; simp [executeMutationSt, h, hc]
    · right; simp [executeMutationSt, h, hc]

theorem executeMutationSt_tables (env : FlushEnv) (st : PassSt) (i : String) :
    (executeMutationSt env st i).1.tempToReal = st.tempToReal ∧
    (executeMutationSt env st i).1.failedTemp = st.failedTemp := by
  rcases h : env.execResult i with ret | msg
  · simp [executeMutationSt, h]
  · rcases hc : classifyFailure msg env.onLine with _ | _ <;>
      simp [executeMutationSt, h, hc]

/-- The persisted queue never grows during a step. -/
theorem stepCore_persisted_mem (env : FlushEnv) (st : PassSt) (m x : QM)
    (hx : x ∈ (stepCore env st m).1.persisted) : x ∈ st.persisted := by
  unfold stepCore at hx
  split at hx
  · exact (List.mem_filter.mp hx).1
  · split at hx
    · exact hx
    · unfold stepExec at hx
      rcases hacq : (acquireExec env st m (resolveStep st m).1 (resolveStep st m).2).2 with _ | e
      · simp only [hacq] at hx
        exact (List.mem_filter.mp hx).1
      · simp only [hacq, recordResult_persisted] at hx
        rcases executeMutationSt_persisted env
            { st with executors := (acquireExec env st m (resolveStep st m).1 (resolveStep st m).2).1 }
            m.id with hp | hp
        · rw [hp] at hx; exact hx
        · rw [hp] at hx; exact (List.mem_filter.mp hx).1

theorem runPass_persisted_mem (env : FlushEnv) (l : List QM) (st : PassSt) (x : QM)
    (hx : x ∈ (runPass env st l).1.persisted) : x ∈ st.persisted := by
  induction l generalizing st with
  | nil => exact hx
  | cons m rest ih =>
    rw [runPass_cons] at hx
    exact stepCore_persisted_mem env st m x (ih (stepCore env st m).1 hx)

theorem stepCore_mem_preserved (env : FlushEnv) (st : PassSt) (m x : QM)
    (hx : x ∈ st.persisted) (hne : m.id ≠ x.id) :
    x ∈ (stepCore env st m).1.persisted := by
  have hfil : x ∈ dequeueList st.persisted m.id := by
    refine List.mem_filter.mpr ⟨hx, ?_⟩
    simp [bne]
    exact fun h => hne h.symm
  unfold stepCore
  split
  · exact hfil
  · split
    · exact hx
    · unfold stepExec
      rcases hacq : (acquireExec env st m (resolveStep st m).1 (resolveStep st m).2).2 with _ | e
      · simp only [hacq]
        exact hfil
      · simp only [hacq, recordResult_persisted]
        rcases executeMutationSt_persisted env
            { st with executors := (acquireExec env st m (resolveStep st m).1 (resolveStep st m).2).1 }
            m.id with hp | hp
        · rw [hp]; exact hx
        · rw [hp]; exact hfil

theorem runPass_mem_preserved (env : FlushEnv) (l : List QM) (st : PassSt) (x : QM)
    (hx : x ∈ st.persisted) (hne : ∀ m ∈ l, m.id ≠ x.id) :
    x ∈ (runPass env st l).1.persisted := by
  induction l generalizing st with
  | nil => exact hx
  | cons m rest ih =>
    rw [runPass_cons]
    exact ih (stepCore env st m).1
      (stepCore_mem_preserved env st m x hx (hne m (List.mem_cons_self m rest)))
      (fun m2 hm2 => hne m2 (List.mem_cons_of_mem m hm2))

theorem stepCore_failedTemp_mono (env : FlushEnv) (st : PassSt) (m : QM) (t : String)
    (h : st.failedTemp t = true) : (stepCore env st m).1.failedTemp t = true := by
  unfold stepCore
  split
  · exact h
  · split
    · exact h
    · unfold stepExec
      rcases hacq : (acquireExec env st m (resolveStep st m).1 (resolveStep st m).2).2 with _ | e
      · simp only [hacq]; exact h
      · simp only [hacq]
        refine recordResult_failedTemp_mono _ _ _ _ _ ?_
        rw [(executeMutationSt_tables env _ m.id).2]
        exact h

theorem runPass_failedTemp_mono (env : FlushEnv) (l : List QM) (st : PassSt) (t : String)
    (h : st.failedTemp t = true) : (runPass env st l).1.failedTemp t = true := by
  induction l generalizing st with
  | nil => exact h
  | cons m rest ih =>
    rw [runPass_cons]
    exact ih (stepCore env st m).1 (stepCore_failedTemp_mono env st m t h)

theorem recordResult_tempToReal_pres (st : PassSt) (m r : QM) (ret : Option String)
    (t : String) (h : r.payload.tempId = some t → r.type ≠ "create") :
    (recordResult st m r ret).tempToReal t = st.tempToReal t := by
  unfold recordResult
  rcases ret with _ | s
  · dsimp only
    split_ifs <;> rfl
  · dsimp only
    split_ifs with hg
    · rcases hg' : r.payload.tempId with _ | u
      · rw [hg'] at hg; simp [optTruthy] at hg
      · rw [hg'] at hg
        simp only [optTruthy, Bool.and_eq_true, beq_iff_eq] at hg
        have htu : t ≠ u := by
          intro he
          exact h (he ▸ hg') hg.1
        simp [hg', htu]
    · rfl

theorem recordResult_tempToReal_set (st : PassSt) (m r : QM) (s t : String)
    (hty : r.type = "create") (htmp : r.payload.tempId = some t) (ht : t ≠ "") :
    (recordResult st m r (some s)).tempToReal t = some s := by
  unfold recordResult
  simp [hty, htmp, optTruthy, ht]

theorem stepCore_tempToReal_pres (env : FlushEnv) (st : PassSt) (m : QM) (t : String)
    (h : m.payload.tempId = some t → m.type ≠ "create") :
    (stepCore env st m).1.tempToReal t = st.tempToReal t := by
  unfold stepCore
  split
  · rfl
  · split
    · rfl
    · unfold stepExec
      rcases hacq : (acquireExec env st m (resolveStep st m).1 (resolveStep st m).2).2 with _ | e
      · simp only [hacq]
      · simp only [hacq]
        have h2 : (resolveStep st m).1.payload.tempId = some t →
            (resolveStep st m).1.type ≠ "create" := by
          rw [resolveStep_tempId, resolveStep_type]
          exact h
        rw [recordResult_tempToReal_pres _ _ _ _ _ h2,
          (executeMutationSt_tables env _ m.id).1]

theorem runPass_tempToReal_pres (env : FlushEnv) (l : List QM) (st : PassSt) (t : String)
    (h : ∀ m ∈ l, m.payload.tempId = some t → m.type ≠ "create") :
    (runPass env st l).1.tempToReal t = st.tempToReal t := by
  induction l generalizing st with
  | nil => rfl
  | cons m rest ih =>
    rw [runPass_cons]
    rw [ih (stepCore env st m).1 (fun m2 hm2 => h m2 (List.mem_cons_of_mem m hm2))]
    exact stepCore_tempToReal_pres env st m t (h m (List.mem_cons_self m rest))

theorem stepCore_stale (env : FlushEnv) (st : PassSt) (m : QM)
    (h : env.now - m.timestamp > MUTATION_MAX_AGE_MS) :
    stepCore env st m =
      ({ st with persisted := dequeueList st.persisted m.id,
                 executors := eraseExec st.executors m.id }, .droppedStale m.id) := by
  simp [stepCore, h]

theorem stepCore_depSkip (env : FlushEnv) (st : PassSt) (m : QM)
    (h1 : ¬ env.now - m.timestamp > MUTATION_MAX_AGE_MS) (h2 : depSkip st m = true) :
    stepCore env st m = (st, .skippedFailedDep m.id) := by
  simp [stepCore, h1, h2]

theorem stepExec_acq_some (env : FlushEnv) (st : PassSt) (m : QM) (e : ExecInfo)
    (h : (acquireExec env st m (resolveStep st m).1 (resolveStep st m).2).2 = some e) :
    stepExec env st m =
      (recordResult
          (executeMutationSt env
            { st with executors :=
                (acquireExec env st m (resolveStep st m).1 (resolveStep st m).2).1 } m.id).1
          m (resolveStep st m).1
          (executeMutationSt env
            { st with executors :=
                (acquireExec env st m (resolveStep st m).1 (resolveStep st m).2).1 } m.id).2,
        .executed m.id e (env.execResult m.id)) := by
  unfold stepExec
  simp only [h]

theorem stepExec_acq_none (env : FlushEnv) (st : PassSt) (m : QM)
    (h : (acquireExec env st m (resolveStep st m).1 (resolveStep st m).2).2 = none) :
    stepExec env st m =
      ({ st with executors :=
                   (acquireExec env st m (resolveStep st m).1 (resolveStep st m).2).1,
                 persisted := dequeueList st.persisted m.id },
        .droppedNoExecutor m.id) := by
  unfold stepExec
  simp only [h]

/-- Inversion: what an `executed` trace event tells us about the
conditions and effect of the step that produced it. -/
theorem stepCore_executed_inv (env : FlushEnv) (st : PassSt) (m : QM)
    (i : String) (e : ExecInfo) (r : ExecResult)
    (hev : (stepCore env st m).2 = .executed i e r) :
    (¬ env.now - m.timestamp > MUTATION_MAX_AGE_MS) ∧ depSkip st m = false ∧
    i = m.id ∧ r = env.execResult m.id ∧
    (acquireExec env st m (resolveStep st m).1 (resolveStep st m).2).2 = some e ∧
    (stepCore env st m).1 =
      recordResult
        (executeMutationSt env
          { st with executors :=
              (acquireExec env st m (resolveStep st m).1 (resolveStep st m).2).1 } m.id).1
        m (resolveStep st m).1
        (executeMutationSt env
          { st with executors :=
              (acquireExec env st m (resolveStep st m).1 (resolveStep st m).2).1 } m.id).2 := by
  by_cases hst : env.now - m.timestamp > MUTATION_MAX_AGE_MS
  · rw [stepCore_stale env st m hst] at hev
    exact absurd hev (by simp)
  · by_cases hdep : depSkip st m = true
    · rw [stepCore_depSkip env st m hst hdep] at hev
      exact absurd hev (by simp)
    · have hsc : stepCore env st m = stepExec env st m := by
        simp [stepCore, hst, hdep]
      rcases hacq : (acquireExec env st m (resolveStep st m).1 (resolveStep st m).2).2
        with _ | e'
      · rw [hsc, stepExec_acq_none env st m hacq] at hev
        exact absurd hev (by simp)
      · rw [hsc, stepExec_acq_some env st m e' hacq] at hev
        simp only [TraceEv.executed.injEq] at hev
        refine ⟨hst, by simpa using hdep, hev.1.symm, hev.2.2.symm, ?_, ?_⟩
        · rw [hev.2.1]
        · rw [hsc, stepExec_acq_some env st m e' hacq]

theorem acquireExec_resolved (env : FlushEnv) (st : PassSt) (m rm : QM) (e : ExecInfo)
    (h : (acquireExec env st m rm true).2 = some e) : e = .freshlyBuilt rm := by
  unfold acquireExec at h
  rcases hx : st.executors m.id with _ | e0 <;> rw [hx] at h <;> simp at h <;>
    split_ifs at h <;> simp_all

theorem executeMutationSt_success (env : FlushEnv) (st : PassSt) (i : String)
    (ret : Option String) (h : env.execResult i = .success ret) :
    executeMutationSt env st i =
      ({ st with persisted := dequeueList st.persisted i,
                 executors := eraseExec st.executors i }, ret) := by
  simp [executeMutationSt, h]

theorem executeMutationSt_keep (env : FlushEnv) (st : PassSt) (i msg : String)
    (h : env.execResult i = .failure msg)
    (hc : classifyFailure msg env.onLine = .keepQueued) :
    executeMutationSt env st i = (st, none) := by
  simp [executeMutationSt, h, hc]

theorem executeMutationSt_drop (env : FlushEnv) (st : PassSt) (i msg : String)
    (h : env.execResult i = .failure msg)
    (hc : classifyFailure msg env.onLine = .dropPermanent) :
    executeMutationSt env st i =
      ({ st with persisted := dequeueList st.persisted i,
                 executors := eraseExec st.executors i }, none) := by
  simp [executeMutationSt, h, hc]

theorem recordResult_failedTemp_set (st : PassSt) (m r : QM) (T : String)
    (hty : r.type = "create") (htmp : r.payload.tempId = some T) (hT : T ≠ "")
    (hq : st.persisted.any (fun x => x.id == m.id) = true) :
    (recordResult st m r none).failedTemp T = true := by
  unfold recordResult
  simp [hty, htmp, optTruthy, hT, hq]

/-- A create that executes and succeeds with a server id records the
temp-to-real binding. -/
theorem stepCore_create_success_sets (env : FlushEnv) (st : PassSt) (m : QM)
    (i : String) (e : ExecInfo) (T S : String)
    (hev : (stepCore env st m).2 = .executed i e (.success (some S)))
    (hty : m.type = "create") (htmp : m.payload.tempId = some T) (hT : T ≠ "") :
    (stepCore env st m).1.tempToReal T = some S := by
  obtain ⟨hst, hdep, hi, hr, hacq, hstate⟩ :=
    stepCore_executed_inv env st m i e _ hev
  rw [hstate,
    executeMutationSt_success env _ m.id (some S) hr.symm]
  exact recordResult_tempToReal_set _ m _ S T
    (by rw [resolveStep_type]; exact hty)
    (by rw [resolveStep_tempId]; exact htmp) hT

/-- A create that executes, fails retryably and is still in the queue
records its temp id in the failed set, leaving the queue unchanged. -/
theorem stepCore_create_keepfail_sets (env : FlushEnv) (st : PassSt) (m : QM)
    (i : String) (e : ExecInfo) (T msg : String)
    (hev : (stepCore env st m).2 = .executed i e (.failure msg))
    (hc : classifyFailure msg env.onLine = .keepQueued)
    (hty : m.type = "create") (htmp : m.payload.tempId = some T) (hT : T ≠ "")
    (hmem : m ∈ st.persisted) :
    (stepCore env st m).1.failedTemp T = true ∧
    (stepCore env st m).1.persisted = st.persisted := by
  obtain ⟨hst, hdep, hi, hr, hacq, hstate⟩ :=
    stepCore_executed_inv env st m i e _ hev
  rw [hstate, executeMutationSt_keep env _ m.id msg hr.symm hc]
  constructor
  · refine recordResult_failedTemp_set _ m _ T
      (by rw [resolveStep_type]; exact hty)
      (by rw [resolveStep_tempId]; exact htmp) hT ?_
    exact List.any_eq_true.mpr ⟨m, hmem, by simp⟩
  · rw [recordResult_persisted]

/-! ## Claims -/

/-- C1: during a single drain pass, when a create mutation `c` carrying
tempId `T` executes and succeeds with server id `S`, any mutation `d`
enqueued later in the same log that references `T` and is executed in
the same pass is executed through a freshly built executor constructed
from the resolved copy of `d` in which `T` is replaced by `S` (any
cached executor for `d` is discarded, the factory being called on the
resolved mutation); the side condition requires that no other create
carrying `T` sits between `c` and `d`.  The second conjunct places the
two trace events inside the full `flushQueue` trace. -/
theorem c1_drain_resolves_temp_id_to_server_id (env : FlushEnv)
    (pre mid post : List QM) (c d : QM) (ex0 : String → Option ExecInfo)
    (T S : String) (ec ed : ExecInfo) (r : ExecResult) :
    let q := pre ++ (c :: (mid ++ (d :: post)))
    let s1 := (runPass env (initSt q ex0) pre).1
    let s2 := (stepCore env s1 c).1
    let s3 := (runPass env s2 mid).1
    T ≠ "" →
    c.type = "create" → c.payload.tempId = some T →
    d.payload.itemId = some T →
    (∀ m ∈ mid, m.payload.tempId = some T → m.type ≠ "create") →
    (stepCore env s1 c).2 = .executed c.id ec (.success (some S)) →
    (stepCore env s3 d).2 = .executed d.id ed r →
    ed = .freshlyBuilt { d with payload := { d.payload with itemId := some S } } ∧
    (flushQueue env q ex0).2 =
      (runPass env (initSt q ex0) pre).2 ++
        ((stepCore env s1 c).2 :: ((runPass env s2 mid).2 ++
          ((stepCore env s3 d).2 :: (runPass env (stepCore env s3 d).1 post).2))) := by
  intro q s1 s2 s3 hT hcty hctmp hdref hmid hevc hevd
  have h2 : s2.tempToReal T = some S :=
    stepCore_create_success_sets env s1 c c.id ec T S hevc hcty hctmp hT
  have h3 : s3.tempToReal T = some S := by
    rw [runPass_tempToReal_pres env mid s2 T hmid]
    exact h2
  have hres : resolveStep s3 d =
      ({ d with payload := { d.payload with itemId := some S } }, true) :=
    resolveStep_hit s3 d T S hdref hT h3
  obtain ⟨hst, hdep, hi, hr, hacq, _⟩ := stepCore_executed_inv env s3 d d.id ed r hevd
  constructor
  · rw [hres] at hacq
    exact acquireExec_resolved env s3 d _ ed hacq
  · show (runPass env (initSt q ex0) (pre ++ (c :: (mid ++ (d :: post))))).2 = _
    rw [runPass_append, runPass_cons, runPass_append, runPass_cons]

/-- C2 (amended): when the create `c` carrying tempId `T` executes,
fails retryably and therefore remains queued, every mutation `d`
positioned later in the drain order that references `T` and is not
itself stale is skipped by the dependency check — its step leaves the
whole pass state untouched and emits a skip event — and `d` is still in
the persisted log when the pass ends (entry ids being distinct). -/
theorem c2_failed_create_skips_later_dependents (env : FlushEnv)
    (pre mid post : List QM) (c d : QM) (ex0 : String → Option ExecInfo)
    (T msg : String) (ec : ExecInfo) :
    let q := pre ++ (c :: (mid ++ (d :: post)))
    let s1 := (runPass env (initSt q ex0) pre).1
    let s2 := (stepCore env s1 c).1
    let s3 := (runPass env s2 mid).1
    T ≠ "" →
    c.type = "create" → c.payload.tempId = some T →
    d.payload.itemId = some T →
    ¬ env.now - d.timestamp > MUTATION_MAX_AGE_MS →
    (∀ m ∈ pre, m.id ≠ c.id) →
    (∀ m ∈ pre, m.id ≠ d.id) → c.id ≠ d.id →
    (∀ m ∈ mid, m.id ≠ d.id) → (∀ m ∈ post, m.id ≠ d.id) →
    (stepCore env s1 c).2 = .executed c.id ec (.failure msg) →
    classifyFailure msg env.onLine = .keepQueued →
    stepCore env s3 d = (s3, .skippedFailedDep d.id) ∧
    d ∈ (flushQueue env q ex0).1.persisted := by
  intro q s1 s2 s3 hT hcty hctmp hdref hdstale hprec hpred hcd hmidd hpostd hevc hkeep
  have hcq : c ∈ (initSt q ex0).persisted := by
    show c ∈ pre ++ (c :: (mid ++ (d :: post)))
    exact List.mem_append_right _ (List.mem_cons_self _ _)
  have hc1 : c ∈ s1.persisted := runPass_mem_preserved env pre (initSt q ex0) c hcq hprec
  have hset := stepCore_create_keepfail_sets env s1 c c.id ec T msg hevc hkeep hcty hctmp hT hc1
  have hft : s3.failedTemp T = true := runPass_failedTemp_mono env mid s2 T hset.1
  have hdep : depSkip s3 d = true := by
    simp [depSkip, hdref, hft, hT]
  have hstep : stepCore env s3 d = (s3, .skippedFailedDep d.id) :=
    stepCore_depSkip env s3 d hdstale hdep
  refine ⟨hstep, ?_⟩
  have hd0 : d ∈ (initSt q ex0).persisted := by
    show d ∈ pre ++ (c :: (mid ++ (d :: post)))
    exact List.mem_append_right _
      (List.mem_cons_of_mem c (List.mem_append_right _ (List.mem_cons_self d post)))
  have hd1 : d ∈ s1.persisted := runPass_mem_preserved env pre _ d hd0 hpred
  have hd2 : d ∈ s2.persisted := stepCore_mem_preserved env s1 c d hd1 hcd
  have hd3 : d ∈ s3.persisted := runPass_mem_preserved env mid _ d hd2 hmidd
  have hfq : (flushQueue env q ex0).1 = (runPass env (stepCore env s3 d).1 post).1 := by
    show (runPass env (initSt q ex0) (pre ++ (c :: (mid ++ (d :: post))))).1 = _
    rw [runPass_append, runPass_cons, runPass_append, runPass_cons]
  rw [hfq, hstep]
  exact runPass_mem_preserved env post s3 d hd3 hpostd

/-- C4 (amended): a mutation that is strictly older than 24 hours when
the drain pass reaches it is dequeued without its executor being
invoked: its trace event is the stale drop (not an execution), and no
entry with its id survives in the persisted log at the end of the
pass. -/
theorem c4_stale_mutation_dropped_unexecuted (env : FlushEnv)
    (pre post : List QM) (m : QM) (ex0 : String → Option ExecInfo) :
    let q := pre ++ (m :: post)
    let s1 := (runPass env (initSt q ex0) pre).1
    env.now - m.timestamp > MUTATION_MAX_AGE_MS →
    (stepCore env s1 m).2 = .droppedStale m.id ∧
    (∀ x ∈ (flushQueue env q ex0).1.persisted, x.id ≠ m.id) := by
  intro q s1 hstale
  have hstep := stepCore_stale env s1 m hstale
  refine ⟨by rw [hstep], ?_⟩
  have hfq : (flushQueue env q ex0).1 = (runPass env (stepCore env s1 m).1 post).1 := by
    show (runPass env (initSt q ex0) (pre ++ (m :: post))).1 = _
    rw [runPass_append, runPass_cons]
  rw [hfq, hstep]
  intro x hx
  have hx2 := runPass_persisted_mem env post _ x hx
  have hx3 := List.mem_filter.mp hx2
  simpa using hx3.2

/-- C8: enqueueing into a log of any size yields a persisted log of at
most 100 entries that ends with the new entry and is exactly the
original log with the new entry appended, minus the excess oldest
entries dropped from the head (so survivors are unchanged and keep
their relative order). -/
theorem c8_enqueue_bounded_oldest_first_eviction (q : List QM) (e : QM) :
    (enqueueList q e).length ≤ MAX_QUEUE_SIZE ∧
    (enqueueList q e).getLast? = some e ∧
    enqueueList q e = (q ++ [e]).drop ((q.length + 1) - MAX_QUEUE_SIZE) := by
  have hM : MAX_QUEUE_SIZE = 100 := rfl
  have hdrop : enqueueList q e = (q ++ [e]).drop ((q.length + 1) - MAX_QUEUE_SIZE) := by
    show (if (q ++ [e]).length > MAX_QUEUE_SIZE
          then (q ++ [e]).drop ((q ++ [e]).length - MAX_QUEUE_SIZE)
          else q ++ [e]) = _
    by_cases h : (q ++ [e]).length > MAX_QUEUE_SIZE
    · rw [if_pos h, List.length_append]
      simp
    · rw [if_neg h]
      rw [List.length_append] at h
      simp only [List.length_singleton] at h
      rw [hM] at h
      have h0 : (q.length + 1) - MAX_QUEUE_SIZE = 0 := by rw [hM]; omega
      rw [h0, List.drop_zero]
  have hk : (q.length + 1) - MAX_QUEUE_SIZE ≤ q.length := by
    rw [hM]; omega
  refine ⟨?_, ?_, hdrop⟩
  · rw [hdrop, List.length_drop, List.length_append]
    simp only [List.length_singleton]
    rw [hM]
    omega
  · rw [hdrop, List.drop_append_of_le_length hk]
    exact List.getLast?_concat _

/-- C9 (amended): a persistence write failure during enqueue or dequeue
is swallowed — the operations are total and return normally — but
because every read re-reads persisted storage (there is no separate
in-memory copy), the stored log after a failed write is exactly what it
was before, so the operation's effect is lost to the current session as
well, not preserved. -/
theorem c9_failed_write_swallowed_effect_lost (s : Option (List QM)) (e : QM)
    (i : String) :
    enqueueStore true s e = s ∧ dequeueStore true s i = s ∧
    getQueueStore (enqueueStore true s e) = getQueueStore s ∧
    getQueueStore (dequeueStore true s i) = getQueueStore s :=
  ⟨rfl, rfl, rfl, rfl⟩

/-- C3 (amended): an execution failure that does not match the offline
test and carries an extractable HTTP status in 400-499 other than 408
and 429 is dropped permanently; a failure with no extractable status,
or with a 5xx, 408 or 429 status, is kept queued for retry.  The last
conjunct ties the classification to the dispatcher's queue effect:
dropped means dequeued, kept means the queue is untouched. -/
theorem c3_permanent_4xx_dropped_retryable_kept (msg : String) (onLine : Bool) :
    (∀ s, offlineTest msg onLine = false → extractStatus msg = some s →
      400 ≤ s → s < 500 → s ≠ 408 → s ≠ 429 →
      classifyFailure msg onLine = .dropPermanent) ∧
    (extractStatus msg = none → classifyFailure msg onLine = .keepQueued) ∧
    (∀ s, extractStatus msg = some s → 500 ≤ s ∨ s = 408 ∨ s = 429 →
      classifyFailure msg onLine = .keepQueued) ∧
    (∀ (env : FlushEnv) (st : PassSt) (i : String),
      env.execResult i = .failure msg → env.onLine = onLine →
      (classifyFailure msg onLine = .dropPermanent →
        (executeMutationSt env st i).1.persisted = dequeueList st.persisted i) ∧
      (classifyFailure msg onLine = .keepQueued →
        (executeMutationSt env st i).1.persisted = st.persisted)) := by
  refine ⟨?_, ?_, ?_, ?_⟩
  · intro s hoff hst h1 h2 h3 h4
    unfold classifyFailure
    rw [hoff, hst]
    simp [h1, h2, h3, h4]
  · intro hst
    unfold classifyFailure
    rw [hst]
    split_ifs <;> rfl
  · intro s hst hcase
    unfold classifyFailure
    rw [hst]
    by_cases h1 : offlineTest msg onLine = true
    · rw [if_pos h1]
    · rw [if_neg h1]
      dsimp only
      by_cases h2 : 400 ≤ s ∧ s < 500 ∧ s ≠ 408 ∧ s ≠ 429
      · obtain ⟨a, b, c2, d2⟩ := h2
        rcases hcase with h | h | h
        · exact absurd h (by omega)
        · exact absurd h c2
        · exact absurd h d2
      · rw [if_neg h2]
  · intro env st i hres honl
    constructor
    · intro hcl
      rw [executeMutationSt_drop env st i msg hres (by rw [honl]; exact hcl)]
    · intro hcl
      rw [executeMutationSt_keep env st i msg hres (by rw [honl]; exact hcl)]

/-- C10: in the dispatcher's failure classification the offline check
has precedence: a failure whose message contains "fetch" or "network",
or observed while the environment reports no connectivity, is kept
queued regardless of any HTTP status the message carries — in
particular a 4xx failure observed offline is retried, not dropped. -/
theorem c10_offline_check_precedes_status_check (msg : String) (onLine : Bool)
    (h : strIncludes msg "fetch" = true ∨ strIncludes msg "network" = true ∨
      onLine = false) :
    classifyFailure msg onLine = .keepQueued := by
  have hoff : offlineTest msg onLine = true := by
    unfold offlineTest
    rcases h with h | h | h <;> simp [h]
  unfold classifyFailure
  rw [hoff]
  rfl

theorem errFireCycle_fields (s : SubSt) (h : s.active = true) :
    (errFireCycle s).active = true ∧
    (errFireCycle s).retryCount = s.retryCount + 1 := by
  unfold errFireCycle statusEvent scheduleRetry retryTimerFireSub subscribeSub
  simp [h]

theorem errFireCycle_iter (n : Nat) (s : SubSt) (h : s.active = true)
    (h0 : s.retryCount = 0) :
    (errFireCycle^[n] s).active = true ∧ (errFireCycle^[n] s).retryCount = n := by
  induction n with
  | zero => simpa using ⟨h, h0⟩
  | succ k ih =>
    rw [Function.iterate_succ_apply']
    obtain ⟨ha, hr⟩ := ih
    obtain ⟨ha2, hr2⟩ := errFireCycle_fields _ ha
    exact ⟨ha2, by rw [hr2, hr]⟩

/-- C7: with the attempt counter at `n`, an error or timeout status
schedules the retry after `min(1000 * 2^n, 30000)` ms and only then
increments the counter to `n+1`; a successful subscription and a
browser online event each reset the counter to 0; and after `n`
consecutive failed attempts from a fresh effect the counter indeed
stands at `n`, so the delay before the (n+1)-th retry is
`min(1000 * 2^n, 30000)` ms. -/
theorem c7_exponential_backoff_capped (n : Nat) (s : SubSt)
    (hact : s.active = true) (hrc : s.retryCount = n) :
    (statusEvent s .channelError).retryTimer =
      some (min (MIN_RETRY_MS * 2 ^ n) MAX_RETRY_MS) ∧
    (statusEvent s .timedOut).retryTimer =
      some (min (MIN_RETRY_MS * 2 ^ n) MAX_RETRY_MS) ∧
    (statusEvent s .channelError).retryCount = n + 1 ∧
    (∀ s2 : SubSt, s2.active = true → (statusEvent s2 .subscribed).retryCount = 0) ∧
    (∀ s2 : SubSt, s2.active = true → (goOnline s2).retryCount = 0) ∧
    (errFireCycle^[n] subInit).retryCount = n := by
  refine ⟨?_, ?_, ?_, ?_, ?_, (errFireCycle_iter n subInit rfl rfl).2⟩
  · simp [statusEvent, scheduleRetry, hact, hrc]
  · simp [statusEvent, scheduleRetry, hact, hrc]
  · simp [statusEvent, scheduleRetry, hact, hrc]
  · intro s2 h2
    simp [statusEvent, h2]
  · intro s2 h2
    simp [goOnline, subscribeSub, h2]

theorem startRun_inv (g : OrchSt) (hg : OrchInv g) : OrchInv (startRun g) := by
  obtain ⟨h1, h2, h3, h4, h5⟩ := hg
  unfold startRun
  split_ifs with ha hb
  · exact ⟨h1, h2, h3, h4, h5⟩
  · exact ⟨h1, h2, h3, h4, h5⟩
  · push_neg at ha
    exact ⟨fun _ => h2 ha, fun h => by simp at h, fun h => by simp at h,
      fun h => by simp at h, fun h => by simp at h⟩

theorem tokenRes_inv (g : OrchSt) (hg : OrchInv g) (ok : Bool) :
    OrchInv (tokenRes g ok) := by
  obtain ⟨h1, h2, h3, h4, h5⟩ := hg
  unfold tokenRes
  split_ifs with hp hok hr
  · exact ⟨h1, h2, h3, h4, h5⟩
  · push_neg at hp
    have hrt : g.retryTimer = false := h1 (by simp [hp])
    exact ⟨fun _ => hrt, fun _ => hrt, fun _ => hrt,
      fun h => absurd (h4 h) (by simp [hp]), fun h => hrt⟩
  · push_neg at hp
    have hrt : g.retryTimer = false := h1 (by simp [hp])
    exact ⟨fun h => by simp at h, fun h => by simp at h, fun h => by simp at h,
      fun _ => rfl, fun _ => hrt⟩
  · exact ⟨fun h => by simp at h, fun h => by simp at h, fun h => by simp at h,
      fun h => by simp at h, fun h => by simp at h⟩

theorem stepsRes_inv (g : OrchSt) (hg : OrchInv g) (ok : Bool) :
    OrchInv (stepsRes g ok) := by
  obtain ⟨h1, h2, h3, h4, h5⟩ := hg
  unfold stepsRes
  split_ifs with hp hok hr
  · exact ⟨h1, h2, h3, h4, h5⟩
  · push_neg at hp
    have hrt : g.retryTimer = false := h1 (by simp [hp])
    exact ⟨fun h => by simp at h, fun h => by simp at h, fun _ => hrt,
      fun h => by simp at h, fun h => by simp at h⟩
  · push_neg at hp
    have hrt : g.retryTimer = false := h1 (by simp [hp])
    exact ⟨fun h => by simp at h, fun h => by simp at h, fun h => by simp at h,
      fun h => by simp at h, fun h => by simp at h⟩
  · exact ⟨fun h => by simp at h, fun h => by simp at h, fun h => by simp at h,
      fun h => by simp at h, fun h => by simp at h⟩

theorem manualReconnect_inv (g : OrchSt) (hg : OrchInv g) :
    OrchInv (manualReconnect g) := by
  unfold manualReconnect
  split_ifs with hp
  · exact hg
  · refine startRun_inv _ ⟨?_, ?_, ?_, ?_, ?_⟩
    · intro _; rfl
    · intro _; rfl
    · intro _; rfl
    · intro h; simp at h
    · intro _; rfl

theorem browserReconnect_inv (g : OrchSt) (hg : OrchInv g) (now : Nat) :
    OrchInv (browserReconnect now g) := by
  unfold browserReconnect
  split_ifs with ht
  · exact hg
  · exact manualReconnect_inv _ hg

theorem orchRetryTimerFire_inv (g : OrchSt) (hg : OrchInv g) :
    OrchInv (orchRetryTimerFire g) := by
  unfold orchRetryTimerFire
  split_ifs with ht
  · refine startRun_inv _ ⟨?_, ?_, ?_, ?_, ?_⟩
    · intro _; rfl
    · intro _; rfl
    · intro h; simp at h
    · intro h; simp at h
    · intro h; simp at h
  · exact hg

theorem cooldownTimerFire_inv (g : OrchSt) (hg : OrchInv g) :
    OrchInv (cooldownTimerFire g) := by
  obtain ⟨h1, h2, h3, h4, h5⟩ := hg
  unfold cooldownTimerFire
  by_cases ht : g.cooldownTimer = true
  · rw [if_pos ht]
    by_cases hc : g.st = .cooldown
    · rw [if_pos hc]
      exact ⟨fun h => h1 h, fun _ => h3 hc, fun h => by simp at h,
        fun h => by simp at h, fun h => by simp at h⟩
    · rw [if_neg hc]
      exact ⟨fun h => h1 h, fun h => h2 h, fun h => h3 h,
        fun h => h4 h, fun h => h5 h⟩
  · rw [if_neg ht]
    exact ⟨h1, h2, h3, h4, h5⟩

theorem orchStep_inv (g : OrchSt) (hg : OrchInv g) (e : OEv) :
    OrchInv (orchStep g e) := by
  cases e with
  | startRun => exact startRun_inv g hg
  | tokenRes ok => exact tokenRes_inv g hg ok
  | stepsRes ok => exact stepsRes_inv g hg ok
  | manualReconnect => exact manualReconnect_inv g hg
  | browserReconnect now => exact browserReconnect_inv g hg now
  | retryTimerFire => exact orchRetryTimerFire_inv g hg
  | cooldownTimerFire => exact cooldownTimerFire_inv g hg

theorem orchInit_inv : OrchInv orchInit :=
  ⟨fun h => by simp [orchInit] at h, fun _ => rfl, fun _ => rfl,
    fun h => by simp [orchInit] at h, fun _ => rfl⟩

theorem orchRun_inv_from : ∀ (evs : List OEv) (g : OrchSt),
    OrchInv g → OrchInv (orchRun g evs)
  | [], _, hg => hg
  | e :: rest, g, hg => orchRun_inv_from rest (orchStep g e) (orchStep_inv g hg e)

theorem orchRun_inv (evs : List OEv) : OrchInv (orchRun orchInit evs) :=
  orchRun_inv_from evs orchInit orchInit_inv

/-- C5 (amended): five consecutive credential-refresh failures drive
the orchestrator to `auth_failed`.  In any reachable `auth_failed`
state, a bare `runReconnect()` invocation — which is all the 45-minute
proactive timer does — and the two timer callbacks leave the machine in
`auth_failed`; the `reconnect()` routine, however, escapes it, and it is
invoked not only manually but also by browser online and
tab-visibility events past the 5-second throttle: it resets the retry
counter, forces `idle` and immediately starts a recovery pass, while a
throttled browser event does nothing. -/
theorem c5_auth_failed_reached_and_escape_paths :
    (orchRun orchInit fiveAuthFailures).st = .authFailed ∧
    (∀ evs : List OEv,
      (orchRun orchInit evs).st = .authFailed →
      startRun (orchRun orchInit evs) = orchRun orchInit evs ∧
      orchRetryTimerFire (orchRun orchInit evs) = orchRun orchInit evs ∧
      (cooldownTimerFire (orchRun orchInit evs)).st = .authFailed ∧
      (manualReconnect (orchRun orchInit evs)).st = .reconnecting ∧
      (manualReconnect (orchRun orchInit evs)).retry = 0 ∧
      (manualReconnect (orchRun orchInit evs)).phase = some .awaitingToken ∧
      (∀ now, RECONNECT_THROTTLE_MS ≤ now - (orchRun orchInit evs).lastAttempt →
        (browserReconnect now (orchRun orchInit evs)).st = .reconnecting ∧
        (browserReconnect now (orchRun orchInit evs)).retry = 0) ∧
      (∀ now, now - (orchRun orchInit evs).lastAttempt < RECONNECT_THROTTLE_MS →
        browserReconnect now (orchRun orchInit evs) = orchRun orchInit evs)) := by
  constructor
  · decide
  · intro evs hst
    obtain ⟨h1, h2, h3, h4, h5⟩ := orchRun_inv evs
    set g := orchRun orchInit evs with hgdef
    have hph : g.phase = none := h4 hst
    have hrt : g.retryTimer = false := h5 hst
    have hman : manualReconnect g =
        { g with st := .reconnecting, retry := 0, retryTimer := false,
                 cooldownTimer := false, phase := some .awaitingToken } := by
      unfold manualReconnect startRun
      rw [if_neg (by simp [hph])]
      rw [if_neg (by simp)]
      rw [if_neg (by simp [hph])]
    refine ⟨?_, ?_, ?_, ?_, ?_, ?_, ?_, ?_⟩
    · unfold startRun
      rw [if_pos (by simp [hst])]
    · unfold orchRetryTimerFire
      rw [hrt]
      simp
    · unfold cooldownTimerFire
      by_cases ht : g.cooldownTimer = true
      · rw [if_pos ht]
        simp [hst]
      · rw [if_neg ht]
        exact hst
    · rw [hman]
    · rw [hman]
    · rw [hman]
    · intro now hthr
      have hnthr : ¬ now - g.lastAttempt < RECONNECT_THROTTLE_MS := by omega
      unfold browserReconnect
      rw [if_neg hnthr]
      have hman2 : manualReconnect { g with lastAttempt := now } =
          { g with lastAttempt := now, st := .reconnecting, retry := 0,
                   retryTimer := false, cooldownTimer := false,
                   phase := some .awaitingToken } := by
        unfold manualReconnect startRun
        rw [if_neg (by simp [hph])]
        rw [if_neg (by simp)]
        rw [if_neg (by simp [hph])]
      rw [hman2]
      exact ⟨rfl, rfl⟩
    · intro now hthr
      unfold browserReconnect
      rw [if_pos hthr]

/-- C6: while a recovery pass is in flight (the runReconnect coroutine
is live and holds the mutex), every further invocation of the recovery
entry point — a bare `runReconnect()` call (proactive timer), the
manual `reconnect()`, the retry-timer callback, or a browser
online/visibility event — performs no recovery step: the orchestrator
state is returned unchanged except that a browser event may record its
throttle timestamp.  The two concrete traces show that two overlapping
reconnect signals yield exactly the same run as a single one: one
recovery pass executes to completion. -/
theorem c6_at_most_one_recovery_pass :
    (∀ evs : List OEv, (orchRun orchInit evs).phase.isSome = true →
      startRun (orchRun orchInit evs) = orchRun orchInit evs ∧
      manualReconnect (orchRun orchInit evs) = orchRun orchInit evs ∧
      orchRetryTimerFire (orchRun orchInit evs) = orchRun orchInit evs ∧
      (∀ now, browserReconnect now (orchRun orchInit evs) = orchRun orchInit evs ∨
        browserReconnect now (orchRun orchInit evs) =
          { orchRun orchInit evs with lastAttempt := now })) ∧
    orchRun orchInit [.startRun, .startRun, .tokenRes true, .stepsRes true] =
      orchRun orchInit [.startRun, .tokenRes true, .stepsRes true] ∧
    orchRun orchInit [.startRun, .manualReconnect, .tokenRes true, .stepsRes true] =
      orchRun orchInit [.startRun, .tokenRes true, .stepsRes true] := by
  refine ⟨?_, by decide, by decide⟩
  intro evs hph
  obtain ⟨h1, _, _, _, _⟩ := orchRun_inv evs
  have hrt : (orchRun orchInit evs).retryTimer = false := h1 hph
  set g := orchRun orchInit evs with hgdef
  have hstart : startRun g = g := by
    unfold startRun
    by_cases hs : g.st = .idle
    · rw [if_neg (by simp [hs]), if_pos hph]
    · rw [if_pos hs]
  have hman : manualReconnect g = g := by
    unfold manualReconnect
    rw [if_pos hph]
  refine ⟨hstart, hman, ?_, ?_⟩
  · unfold orchRetryTimerFire
    rw [hrt]
    simp
  · intro now
    unfold browserReconnect
    by_cases hthr : now - g.lastAttempt < RECONNECT_THROTTLE_MS
    · left
      rw [if_pos hthr]
    · right
      rw [if_neg hthr]
      unfold manualReconnect
      rw [if_pos (by simpa using hph)]

/-! ## Counterexamples and witnesses -/

/-- C2 counterexample: in the queue `[refMut, createMut]` the create
"m2" carrying tempId "tmp1" fails retryably and remains queued at the
end of the pass (the claim's hypothesis holds), yet the other queued
mutation referencing "tmp1" — positioned before the create — was
executed and dequeued during the same pass, refuting the claim that
every other mutation referencing the temp id is left untouched. -/
theorem c2_counterexample :
    (flushQueue envCreateFails [refMut, createMut] exNone).2 =
      [.executed "m1" (.freshlyBuilt refMut) (.success none),
       .executed "m2" (.freshlyBuilt createMut) (.failure "boom: 500")] ∧
    (flushQueue envCreateFails [refMut, createMut] exNone).1.persisted = [createMut] ∧
    refMut.payload.itemId = some "tmp1" ∧
    createMut.type = "create" ∧ createMut.payload.tempId = some "tmp1" :=
  ⟨rfl, rfl, rfl, rfl, rfl⟩

/-- C3 counterexample: the failure message "Failed to fetch: 404"
carries the extractable HTTP status 404 — a 4xx other than 408/429 —
yet because the message matches the offline test the mutation is kept
queued, not dequeued permanently as the claim states. -/
theorem c3_counterexample :
    extractStatus "Failed to fetch: 404" = some 404 ∧
    classifyFailure "Failed to fetch: 404" true = .keepQueued ∧
    (flushQueue envFetch404 [plainMut] exNone).1.persisted = [plainMut] ∧
    (flushQueue envFetch404 [plainMut] exNone).2 =
      [.executed "m1" (.freshlyBuilt plainMut) (.failure "Failed to fetch: 404")] :=
  ⟨rfl, rfl, rfl, rfl⟩

/-- C4 counterexample: at a drain whose clock stands exactly at
enqueue-time + 24 h (so `now ≥ t + 24h` holds), the staleness test
`now - enqueuedAt > 24h` is false: the mutation is executed — its
executor is invoked — instead of being removed without execution as
the claim states for all times ≥ t + 24h. -/
theorem c4_counterexample :
    envBoundary.now = plainMut.timestamp + MUTATION_MAX_AGE_MS ∧
    (flushQueue envBoundary [plainMut] exNone).2 =
      [.executed "m1" (.freshlyBuilt plainMut) (.success none)] :=
  ⟨rfl, rfl⟩

/-- C5 counterexample: five consecutive credential-refresh failures
reach the auth-failed state, but a browser online event (handled by
`debouncedReconnect`, past the throttle) moves the machine out of it to
`reconnecting` — refuting the claim that browser online events do not
leave `auth_failed`. -/
theorem c5_counterexample :
    orchRun orchInit fiveAuthFailures = gAuthFailed ∧
    (orchStep gAuthFailed (.browserReconnect 5000)).st = .reconnecting ∧
    (orchStep gAuthFailed (.browserReconnect 5000)).st ≠ .authFailed := by
  refine ⟨by decide, by decide, by decide⟩

/-- C9 counterexample: starting from an initialized empty stored queue,
an enqueue whose persistence write fails leaves storage unchanged, and
a subsequent read within the same session does not observe the
enqueued entry — refuting the claim that the current session still
observes the operation's effect after a failed write. -/
theorem c9_counterexample :
    enqueueStore true (some []) plainMut = some [] ∧
    plainMut ∉ getQueueStore (enqueueStore true (some []) plainMut) := by
  refine ⟨rfl, by simp [enqueueStore, saveQueueStore, getQueueStore]⟩

/-- Witness for C1 at a concrete input: the create "m1" succeeds with
server id "srv9"; the toggle "m2" enqueued later referencing "tmp1" is
executed through a freshly built executor over the resolved payload
(its stale cached executor discarded), as the full trace shows. -/
theorem c1_witness :
    (stepCore envCreateOk (initSt [createM1, toggleM2] exCachedM2) createM1).2 =
      .executed "m1" (.freshlyBuilt createM1) (.success (some "srv9")) ∧
    ExecInfo.freshlyBuilt
        { toggleM2 with payload := { toggleM2.payload with itemId := some "srv9" } } =
      .freshlyBuilt
        { toggleM2 with payload := { toggleM2.payload with itemId := some "srv9" } } ∧
    (flushQueue envCreateOk [createM1, toggleM2] exCachedM2).2 =
      [.executed "m1" (.freshlyBuilt createM1) (.success (some "srv9")),
       .executed "m2"
         (.freshlyBuilt
           { toggleM2 with payload := { toggleM2.payload with itemId := some "srv9" } })
         (.success none)] :=
  have h := c1_drain_resolves_temp_id_to_server_id envCreateOk [] [] []
    createM1 toggleM2 exCachedM2 "tmp1" "srv9" (.freshlyBuilt createM1)
    (.freshlyBuilt
      { toggleM2 with payload := { toggleM2.payload with itemId := some "srv9" } })
    (.success none) (by decide) rfl rfl rfl (by simp) rfl rfl
  ⟨rfl, h.1, rfl⟩

/-- Witness for C2 (amended) at a concrete input: the create "m2" fails
retryably and the toggle "m1" positioned after it and referencing
"tmp1" is skipped and still persisted at the end of the pass. -/
theorem c2_witness :
    (stepCore envCreateFails (initSt [createMut, refMut] exNone) createMut).2 =
      .executed "m2" (.freshlyBuilt createMut) (.failure "boom: 500") ∧
    classifyFailure "boom: 500" true = .keepQueued ∧
    refMut ∈ (flushQueue envCreateFails [createMut, refMut] exNone).1.persisted :=
  have h := c2_failed_create_skips_later_dependents envCreateFails [] [] []
    createMut refMut exNone "tmp1" "boom: 500" (.freshlyBuilt createMut)
    (by decide) rfl rfl rfl (by decide) (by simp) (by simp) (by decide)
    (by simp) (by simp) rfl rfl
  ⟨rfl, rfl, h.2⟩

/-- Witness for C4 (amended) at a concrete input: one millisecond past
the 24-hour window the entry is dropped stale, unexecuted. -/
theorem c4_witness :
    MUTATION_MAX_AGE_MS < envPastWindow.now - plainMut.timestamp ∧
    (stepCore envPastWindow (initSt [plainMut] exNone) plainMut).2 =
      .droppedStale "m1" ∧
    (∀ x ∈ (flushQueue envPastWindow [plainMut] exNone).1.persisted, x.id ≠ "m1") :=
  have h := c4_stale_mutation_dropped_unexecuted envPastWindow [] [] plainMut
    exNone (by decide)
  ⟨by decide, h.1, h.2⟩

/-- Witness for C3 (amended) at a concrete input: "Create failed: 404"
does not match the offline test, carries status 404, and is dropped
permanently. -/
theorem c3_witness :
    offlineTest "Create failed: 404" true = false ∧
    extractStatus "Create failed: 404" = some 404 ∧
    classifyFailure "Create failed: 404" true = .dropPermanent :=
  ⟨rfl, rfl,
    (c3_permanent_4xx_dropped_retryable_kept "Create failed: 404" true).1 404
      rfl rfl (by decide) (by decide) (by decide) (by decide)⟩

/-- Witness for C10 at a concrete input: "Failed to fetch: 404" carries
the permanent-client status 404 yet is kept queued because it matches
the offline test. -/
theorem c10_witness :
    strIncludes "Failed to fetch: 404" "fetch" = true ∧
    extractStatus "Failed to fetch: 404" = some 404 ∧
    classifyFailure "Failed to fetch: 404" true = .keepQueued :=
  ⟨rfl, rfl,
    c10_offline_check_precedes_status_check "Failed to fetch: 404" true (Or.inl rfl)⟩

/-- Witness for C7 at a concrete input: with the attempt counter at 3,
an error status schedules the retry after min(1000·2³, 30000) = 8000 ms
and increments the counter to 4. -/
theorem c7_witness :
    subThree.active = true ∧ subThree.retryCount = 3 ∧
    (statusEvent subThree .channelError).retryTimer = some 8000 ∧
    (statusEvent subThree .channelError).retryCount = 4 :=
  have h := c7_exponential_backoff_capped 3 subThree rfl rfl
  ⟨rfl, rfl, by rw [h.1]; decide, by rw [h.2.2.1]⟩

/-- Witness for C5 (amended) at a concrete input: the state reached by
five consecutive refresh failures is auth-failed, and the reconnect
routine escapes it to `reconnecting` with the counter reset. -/
theorem c5_witness :
    (orchRun orchInit fiveAuthFailures).st = .authFailed ∧
    (manualReconnect (orchRun orchInit fiveAuthFailures)).st = .reconnecting ∧
    (manualReconnect (orchRun orchInit fiveAuthFailures)).retry = 0 :=
  have h := c5_auth_failed_reached_and_escape_paths.2 fiveAuthFailures (by decide)
  ⟨by decide, h.2.2.2.1, h.2.2.2.2.1⟩

/-- Witness for C6 at a concrete input: right after a pass has started
(phase live), both a bare runReconnect invocation and a manual
reconnect are no-ops. -/
theorem c6_witness :
    (orchRun orchInit [OEv.startRun]).phase.isSome = true ∧
    startRun (orchRun orchInit [OEv.startRun]) = orchRun orchInit [OEv.startRun] ∧
    manualReconnect (orchRun orchInit [OEv.startRun]) =
      orchRun orchInit [OEv.startRun] :=
  have h := c6_at_most_one_recovery_pass.1 [OEv.startRun] (by decide)
  ⟨by decide, h.1, h.2.1⟩

end SyncCore
